import Mathlib

/-!
Shallow embedding of the Growmarkt orchestration pipeline (src/app.py) and
proofs of the specification claims about it.

The script is a linear pipeline driven by two button handlers:
the SEARCH button (Phase 1: UN Comtrade market data, Phase 2: Google/Hunter
buyer discovery) and the Generate Strategic Report button (Phase 3: Gemini
prompt).  External APIs are modelled as oracles passed in explicitly; the
handlers are embedded as pure functions from credentials, inputs, oracles and
the Streamlit session state to a new session state plus a trace of outbound
API calls.
-/

namespace Growmarkt

/-- One row of the Comtrade result table; the code reads only the
`primaryValue` and `netWgt` columns (src/app.py lines 118-119). -/
structure TradeRow where
  primaryValue : ℚ
  netWgt : ℚ

/-- Column sum `df['primaryValue'].sum()`, embedded as a left fold over the
rows starting from 0. -/
def sumPrimaryValue (rows : List TradeRow) : ℚ :=
  rows.foldl (fun acc r => acc + r.primaryValue) 0

/-- Column sum `df['netWgt'].sum()`, embedded as a left fold over the rows
starting from 0. -/
def sumNetWgt (rows : List TradeRow) : ℚ :=
  rows.foldl (fun acc r => acc + r.netWgt) 0

/-- Line 120 of src/app.py: `unit_price = val / qty if qty > 0 else 0`. -/
def unitPrice (val qty : ℚ) : ℚ :=
  if 0 < qty then val / qty else 0

/-- C1: for any summed import value `val >= 0` and any summed net weight
`qty`, the computed unit price is `val / qty` when `qty > 0` and `0` when
`qty = 0`; the division branch is guarded by `qty > 0`, so it is never taken
with a zero divisor. -/
theorem c1_unit_price_guard (val qty : ℚ) (hval : 0 ≤ val) :
    (0 < qty → unitPrice val qty = val / qty) ∧
    (qty = 0 → unitPrice val qty = 0) := by
  constructor
  · intro hq
    simp [unitPrice, hq]
  · intro hq
    simp [unitPrice, hq]

/-- Witness for C1 at concrete inputs: value 6 with weight 2 gives 3, value 6
with weight 0 gives 0. -/
theorem c1_unit_price_guard_witness :
    unitPrice 6 2 = 3 ∧ unitPrice 6 0 = 0 := by
  constructor
  · have h := (c1_unit_price_guard 6 2 (by norm_num)).1 (by norm_num)
    rw [h]; norm_num
  · exact (c1_unit_price_guard 6 0 (by norm_num)).2 rfl

/-! ### String utilities

Character-list embeddings of the Python string operations the script uses:
substring occurrence, and `str.replace("www.", "")` (which replaces every
non-overlapping occurrence in a single left-to-right pass, not only a
leading prefix). -/

/-- Boolean test that `p` is a leading segment of `s`. -/
def isPre : List Char → List Char → Bool
  | [], _ => true
  | _ :: _, [] => false
  | a :: as, b :: bs => a == b && isPre as bs

/-- Boolean test that `p` occurs as a contiguous segment of `s`. -/
def occursIn (p : List Char) : List Char → Bool
  | [] => isPre p []
  | c :: rest => isPre p (c :: rest) || occursIn p rest

/-- Substring occurrence on strings (`pat in s` in Python). -/
def occursInS (pat s : String) : Bool := occursIn pat.data s.data

/-- The pattern replaced on line 151 of src/app.py: `"www."`. -/
def wwwPat : List Char := ['w', 'w', 'w', '.']

/-- Python `str.replace("www.", "")` on line 151 of src/app.py: scan left to
right, deleting each non-overlapping occurrence of `"www."` and continuing
after the deleted match. -/
def stripWWW : List Char → List Char
  | 'w' :: 'w' :: 'w' :: '.' :: rest => stripWWW rest
  | c :: rest => c :: stripWWW rest
  | [] => []

/-- Line 151 of src/app.py: `domain = item['displayLink'].replace("www.", "")`. -/
def normalizeDomain (s : String) : String := ⟨stripWWW s.data⟩

theorem data_append (a b : String) : (a ++ b).data = a.data ++ b.data := rfl

theorem isPre_append_self (p t : List Char) : isPre p (p ++ t) = true := by
  induction p with
  | nil => rfl
  | cons a as ih => simp [isPre, ih]

theorem occursIn_of_isPre (p s : List Char) (h : isPre p s = true) :
    occursIn p s = true := by
  cases s with
  | nil => simpa [occursIn] using h
  | cons c rest => simp [occursIn, h]

theorem occursIn_append_right (p x y : List Char) (h : occursIn p y = true) :
    occursIn p (x ++ y) = true := by
  induction x with
  | nil => simpa using h
  | cons c cs ih => simp [occursIn, ih]

/-- A pattern occurs in any list that contains it as a contiguous block. -/
theorem occursIn_sandwich (p a b : List Char) :
    occursIn p (a ++ (p ++ b)) = true :=
  occursIn_append_right p a (p ++ b)
    (occursIn_of_isPre p (p ++ b) (isPre_append_self p b))

/-- If `"www."` does not occur in `s`, the replace is the identity on `s`. -/
theorem stripWWW_id (s : List Char) (h : occursIn wwwPat s = false) :
    stripWWW s = s := by
  induction s using stripWWW.induct with
  | case1 rest ih =>
    exfalso
    have hp : isPre wwwPat ('w' :: 'w' :: 'w' :: '.' :: rest) = true := by
      simpa using isPre_append_self wwwPat rest
    have hocc := occursIn_of_isPre _ _ hp
    simp [hocc] at h
  | case2 c rest hne ih =>
    rw [stripWWW.eq_2 c rest hne]
    simp only [occursIn, Bool.or_eq_false_iff] at h
    rw [ih h.2]
  | case3 => rfl

/-- A sole leading `"www."` (no other occurrence) is stripped exactly once. -/
theorem stripWWW_leading (rest : List Char) (h : occursIn wwwPat rest = false) :
    stripWWW (wwwPat ++ rest) = rest := by
  have h1 : stripWWW (wwwPat ++ rest) = stripWWW rest := rfl
  rw [h1, stripWWW_id rest h]

/-- C7 counterexample: the claim says a display link whose `"www."` occurs
only in a non-leading position is left unchanged, but
`"shop.www.example.com".replace("www.", "")` removes the inner occurrence and
yields `"shop.example.com"`. -/
theorem c7_counterexample :
    normalizeDomain "shop.www.example.com" = "shop.example.com" ∧
    normalizeDomain "shop.www.example.com" ≠ "shop.www.example.com" := by
  constructor
  · rfl
  · decide

/-- C7 amended: the domain is the display link with every non-overlapping
occurrence of `"www."` deleted in one left-to-right pass; in particular a
link with no occurrence at all is unchanged, and a sole leading `"www."`
(with no further occurrence) is stripped exactly once. -/
theorem c7_domain_normalization (rest : String)
    (h : occursInS "www." rest = false) :
    normalizeDomain ("www." ++ rest) = rest ∧ normalizeDomain rest = rest := by
  have hw : "www.".data = wwwPat := rfl
  have hocc : occursIn wwwPat rest.data = false := by
    have := h
    rw [occursInS, hw] at this
    exact this
  constructor
  · show (⟨stripWWW ("www." ++ rest).data⟩ : String) = rest
    rw [data_append, hw, stripWWW_leading rest.data hocc]
  · show (⟨stripWWW rest.data⟩ : String) = rest
    rw [stripWWW_id rest.data hocc]

/-- Witness for C7 amended at a concrete input: `"www.acme.de"` normalizes to
`"acme.de"`, and `"acme.de"` is left unchanged. -/
theorem c7_domain_normalization_witness :
    normalizeDomain "www.acme.de" = "acme.de" ∧
    normalizeDomain "acme.de" = "acme.de" := by
  have h := c7_domain_normalization "acme.de" (by decide)
  exact ⟨h.1, h.2⟩

/-! ### Data model of the pipeline -/

/-- The five user-supplied API keys (sidebar, src/app.py lines 64-68); an
absent key is the empty string, matching Python string truthiness. -/
structure Creds where
  gemini : String
  comtrade : String
  google : String
  cx : String
  hunter : String
deriving DecidableEq

/-- The four main text inputs (src/app.py lines 90-94). -/
structure Inputs where
  product_name : String
  hs_code : String
  target_country : String
  country_name : String
deriving DecidableEq

/-- Streamlit session state (src/app.py lines 79-82): `market_stats` starts
as None, `buyers_list` as the empty list. -/
structure SessionState where
  market_stats : Option String
  buyers_list : List String
deriving DecidableEq

def initSession : SessionState := { market_stats := none, buyers_list := [] }

/-- The parameter record of the sole `comtradeapicall.getFinalData` call
(src/app.py lines 110-115). -/
structure ComtradeQuery where
  subscription_key : String
  typeCode : String
  freqCode : String
  clCode : String
  period : String
  reporterCode : String
  cmdCode : String
  flowCode : String
  partnerCode : Option String
  partner2Code : Option String
  customsCode : Option String
  motCode : Option String
deriving DecidableEq

/-- Lines 110-115 of src/app.py: the argument values of the one Comtrade
call. -/
def mkComtradeQuery (key reporter cmd : String) : ComtradeQuery :=
  { subscription_key := key, typeCode := "C", freqCode := "A", clCode := "HS",
    period := "2023", reporterCode := reporter, cmdCode := cmd, flowCode := "M",
    partnerCode := none, partner2Code := none, customsCode := none,
    motCode := none }

/-- One item of the Google custom search response (`title`, `displayLink`). -/
structure SearchItem where
  title : String
  displayLink : String
deriving DecidableEq

/-- The parameter record of the `service.cse().list` call (line 145): the
query string built on line 144, the engine id, and `num=5`. -/
structure SearchQuery where
  q : String
  cx : String
  num : Nat
deriving DecidableEq

/-- Lines 144-145 of src/app.py: the search request. -/
def mkSearchQuery (cx product country : String) : SearchQuery :=
  { q := "top " ++ product ++ " importers distributors " ++ country ++
      " -site:pinterest.*",
    cx := cx, num := 5 }

/-- Entry of `found_domains` (line 153). -/
structure Found where
  company : String
  domain : String
deriving DecidableEq

/-- Lines 151-153 of src/app.py: one entry of `found_domains`. -/
def mkFound (it : SearchItem) : Found :=
  { company := it.title, domain := normalizeDomain it.displayLink }

/-- The loop over `res.get('items', [])` (lines 150-154): builds
`found_domains` and `temp_buyers` by appending one entry per response item,
with no truncation of the response. -/
def searchLoop (items : List SearchItem) : List Found × List String :=
  items.foldl (fun acc it => (acc.1 ++ [mkFound it], acc.2 ++ [it.title]))
    ([], [])

/-- Result of one Hunter domain-search call (lines 163-166) as seen by the
code: an exception anywhere in the request, JSON decoding or key access
(`Except.error`), or a decoded response without a usable `data` field
(`Except.ok none`), or the list of email values under `data.emails`
(`Except.ok (some ...)`). -/
abbrev HunterRes : Type := Except Unit (Option (List String))

/-- Lines 161-168: `email` starts as `"Not Public"`, becomes the first
returned address when the lookup succeeds with a non-empty email list, and
stays the sentinel on an empty list, an absent `data` field, or any
exception (`except: pass`). -/
def emailOf : HunterRes → String
  | Except.ok (some (e :: _)) => e
  | _ => "Not Public"

/-- Row of `final_data` (line 169). -/
structure FinalRow where
  company : String
  website : String
  email : String
deriving DecidableEq

/-- Line 169 of src/app.py: the row appended for one `found_domains` entry. -/
def rowOf (hres : String → HunterRes) (f : Found) : FinalRow :=
  { company := f.company, website := f.domain, email := emailOf (hres f.domain) }

/-- The enrichment loop over `found_domains` (lines 159-169). -/
def enrichLoop (hres : String → HunterRes) (found : List Found) :
    List FinalRow :=
  found.foldl (fun acc f => acc ++ [rowOf hres f]) []

/-- Boolean test that a Hunter lookup raised. -/
def hunterFailed : HunterRes → Bool
  | Except.error _ => true
  | _ => false

/-- Phase 2 in full: the search-response loop followed by the enrichment
loop (lines 150-169). -/
def buyerDiscovery (hres : String → HunterRes) (items : List SearchItem) :
    List FinalRow :=
  enrichLoop hres (searchLoop items).1

/-- Line 128 of src/app.py, with the f-string's numeric formatting rendered
via `toString` on ℚ. -/
def fmtStats (val price : ℚ) : String :=
  "Total Import: $" ++ toString val ++ ". Unit Price: $" ++ toString price ++
    "/kg."

/-- The string stored into `st.session_state['market_stats']` by Phase 1
(lines 117-135): formatted stats on a non-empty table, the mirror-data
placeholder on a None or empty table, the fetch-failed placeholder on an
exception. -/
def phase1Stats (res : Except String (List TradeRow)) : String :=
  match res with
  | Except.error _ => "Data fetch failed."
  | Except.ok rows =>
    if rows.isEmpty then "Direct Data Unavailable. Used Mirror Data logic."
    else fmtStats (sumPrimaryValue rows)
      (unitPrice (sumPrimaryValue rows) (sumNetWgt rows))

/-- The external collaborators, as oracles: each maps the issued request to
the value the call returns, or to the exception it raises. -/
structure Oracles where
  comtrade : ComtradeQuery → Except String (List TradeRow)
  search : SearchQuery → Except String (List SearchItem)
  hunter : String → HunterRes

/-- One outbound API call, for the call trace of a run. -/
inductive APICall
  | comtrade (q : ComtradeQuery)
  | search (q : SearchQuery)
  | hunter (domain : String)
deriving DecidableEq

/-- Boolean test that a traced call is the Comtrade call. -/
def isComtradeCall : APICall → Bool
  | APICall.comtrade _ => true
  | _ => false

/-- English aggregate error for missing keys (`t["error_api"]`, line 27). -/
def errorApiEn : String := "❌ CRITICAL: Please enter ALL API keys in the sidebar!"

/-- Line 101: the run proceeds only when all five keys are non-empty
(Python truthiness of the `and` chain over the five strings). -/
def credsComplete (c : Creds) : Bool :=
  !(c.gemini == "" || c.comtrade == "" || c.google == "" || c.cx == "" ||
    c.hunter == "")

/-- Outcome of one click of the SEARCH button. -/
structure RunResult where
  state : SessionState
  calls : List APICall
  table : Option (List FinalRow)
  blockedError : Option String
deriving DecidableEq

/-- The SEARCH button handler (src/app.py lines 100-176): the credential
check, then Phase 1 (Comtrade fetch, `market_stats` update) and Phase 2
(Google search, `buyers_list` update, Hunter enrichment).  Returns the new
session state, the trace of outbound calls, and the displayed buyer table
(`none` when the handler never built `final_data`). -/
def runClick (c : Creds) (inp : Inputs) (o : Oracles) (st : SessionState) :
    RunResult :=
  if credsComplete c then
    let q := mkComtradeQuery c.comtrade inp.target_country inp.hs_code
    let st1 : SessionState :=
      { st with market_stats := some (phase1Stats (o.comtrade q)) }
    let sq := mkSearchQuery c.cx inp.product_name inp.country_name
    match o.search sq with
    | Except.error _ =>
      { state := st1, calls := [APICall.comtrade q, APICall.search sq],
        table := none, blockedError := none }
    | Except.ok items =>
      let fd := (searchLoop items).1
      let st2 : SessionState := { st1 with buyers_list := (searchLoop items).2 }
      { state := st2,
        calls := [APICall.comtrade q, APICall.search sq] ++
          fd.map (fun f => APICall.hunter f.domain),
        table := some (enrichLoop o.hunter fd), blockedError := none }
  else
    { state := st, calls := [], table := none, blockedError := some errorApiEn }

/-- Python `", ".join(xs)` (line 196). -/
def joinComma : List String → String
  | [] => ""
  | [x] => x
  | x :: xs => x ++ ", " ++ joinComma xs

/-- The f-string prompt of lines 199-211, embedded segment by segment. -/
def buildPrompt (product country market buyers aiLang : String) : String :=
  "\n        ACT AS: Senior Foreign Trade Analyst.\n        LANGUAGE: " ++
  ("Respond STRICTLY in " ++ aiLang ++ " language.") ++
  "\n        TASK: Analyze the market potential for " ++ product ++ " in " ++
  country ++
  ".\n        DATA: " ++ market ++ ". \n        Potential Buyers Found: " ++
  buyers ++
  "\n        \n        OUTPUT FORMAT:\n        1. Verdict (Go/No-Go)\n        2. Pricing Strategy (Premium vs Mass)\n        " ++
  ("3. Cultural Marketing Tip for " ++ country) ++
  "\n        " ++ "4. Cold Email Subject Line for the buyers found." ++
  "\n        "

/-- The Generate Strategic Report button handler (lines 183-211) up to the
Gemini call: returns the prompt sent to the model, or `none` when the click
is blocked — no `market_stats` in memory (None or empty string, per Python
truthiness of line 185) or a missing Gemini key (line 187). -/
def reportClick (c : Creds) (inp : Inputs) (aiLang : String)
    (st : SessionState) : Option String :=
  match st.market_stats with
  | none => none
  | some ms =>
    if ms = "" then none
    else if c.gemini = "" then none
    else some (buildPrompt inp.product_name inp.country_name ms
      (joinComma st.buyers_list) aiLang)

/-! ### Loop characterizations -/

theorem foldl_snoc_eq_map {α β : Type} (g : α → β) (l : List α) :
    ∀ acc : List β, l.foldl (fun a x => a ++ [g x]) acc = acc ++ l.map g := by
  induction l with
  | nil => intro acc; simp
  | cons x xs ih => intro acc; rw [List.foldl_cons, ih]; simp

theorem enrichLoop_eq_map (hres : String → HunterRes) (found : List Found) :
    enrichLoop hres found = found.map (rowOf hres) := by
  simpa [enrichLoop] using foldl_snoc_eq_map (rowOf hres) found []

theorem searchLoop_aux (items : List SearchItem) :
    ∀ (acc1 : List Found) (acc2 : List String),
      items.foldl (fun acc it => (acc.1 ++ [mkFound it], acc.2 ++ [it.title]))
          (acc1, acc2) =
        (acc1 ++ items.map mkFound, acc2 ++ items.map SearchItem.title) := by
  induction items with
  | nil => intro a1 a2; simp
  | cons x xs ih => intro a1 a2; rw [List.foldl_cons, ih]; simp

theorem searchLoop_eq (items : List SearchItem) :
    searchLoop items = (items.map mkFound, items.map SearchItem.title) := by
  simpa [searchLoop] using searchLoop_aux items [] []

theorem foldl_add_eq_sum {α : Type} (g : α → ℚ) (l : List α) :
    ∀ a : ℚ, l.foldl (fun acc x => acc + g x) a = a + (l.map g).sum := by
  induction l with
  | nil => intro a; simp
  | cons x xs ih => intro a; rw [List.foldl_cons, ih]; simp; ring

theorem sumPrimaryValue_eq (rows : List TradeRow) :
    sumPrimaryValue rows = (rows.map TradeRow.primaryValue).sum := by
  simpa [sumPrimaryValue] using foldl_add_eq_sum TradeRow.primaryValue rows 0

theorem sumNetWgt_eq (rows : List TradeRow) :
    sumNetWgt rows = (rows.map TradeRow.netWgt).sum := by
  simpa [sumNetWgt] using foldl_add_eq_sum TradeRow.netWgt rows 0

/-! ### Claim theorems: buyer discovery -/

/-- C2 counterexample: the code asks the search API for `num=5` results but
never truncates the response it actually receives; a response carrying 6
items produces 6 leads, so "at most 5 regardless of how many items the
search API returns" is false. -/
theorem c2_counterexample :
    ¬((buyerDiscovery (fun _ => Except.error ())
        (List.replicate 6 { title := "T", displayLink := "t.com" })).length ≤ 5) := by
  decide

/-- C2 amended: Buyer Discovery produces exactly one BuyerLead per item of
the search response, in the response's ranked order (the lead companies are
the item titles in order); the request itself is capped at `num = 5`, so at
most 5 leads result whenever the response honours the requested count, but
the code performs no local truncation. -/
theorem c2_at_most_five (hres : String → HunterRes) (items : List SearchItem)
    (h : items.length ≤ 5) :
    (buyerDiscovery hres items).length ≤ 5 ∧
    (buyerDiscovery hres items).map FinalRow.company =
      items.map SearchItem.title ∧
    ∀ cx product country, (mkSearchQuery cx product country).num = 5 := by
  have hb : buyerDiscovery hres items =
      items.map (fun it => rowOf hres (mkFound it)) := by
    rw [buyerDiscovery, searchLoop_eq, enrichLoop_eq_map, List.map_map]
    rfl
  refine ⟨?_, ?_, ?_⟩
  · rw [hb, List.length_map]; exact h
  · rw [hb, List.map_map]
    rfl
  · intro cx product country; rfl

/-- Witness for C2 amended at a concrete one-item response. -/
theorem c2_at_most_five_witness :
    (buyerDiscovery (fun _ => Except.error ())
      [{ title := "A", displayLink := "www.a.com" }]).length ≤ 5 :=
  (c2_at_most_five (fun _ => Except.error ())
    [{ title := "A", displayLink := "www.a.com" }] (by decide)).1

/-- C3: enrichment never drops a lead (output length equals input length);
each output row is computed from its own lead's lookup result only; a failed
lookup leaves that lead's email at the `"Not Public"` sentinel; and every
email is either the sentinel or a lookup-returned address — never empty,
provided lookup-returned addresses are non-empty. -/
theorem c3_lookup_failure_isolated (hres : String → HunterRes)
    (found : List Found)
    (hne : ∀ d e es, hres d = Except.ok (some (e :: es)) → e ≠ "") :
    (enrichLoop hres found).length = found.length ∧
    enrichLoop hres found = found.map (rowOf hres) ∧
    (∀ f ∈ found, hunterFailed (hres f.domain) = true →
      (rowOf hres f).email = "Not Public") ∧
    (∀ r ∈ enrichLoop hres found,
      (r.email = "Not Public" ∨
        ∃ es, hres r.website = Except.ok (some (r.email :: es))) ∧
      r.email ≠ "") := by
  have hmap := enrichLoop_eq_map hres found
  refine ⟨by rw [hmap, List.length_map], hmap, ?_, ?_⟩
  · intro f _ hfail
    cases hh : hres f.domain with
    | error u => simp [rowOf, emailOf, hh]
    | ok v => simp [hunterFailed, hh] at hfail
  · intro r hr
    rw [hmap] at hr
    obtain ⟨f, _, rfl⟩ := List.mem_map.mp hr
    cases hh : hres f.domain with
    | error u =>
      refine ⟨Or.inl (by simp [rowOf, emailOf, hh]), ?_⟩
      simp [rowOf, emailOf, hh]
    | ok v =>
      cases v with
      | none =>
        refine ⟨Or.inl (by simp [rowOf, emailOf, hh]), ?_⟩
        simp [rowOf, emailOf, hh]
      | some es =>
        cases es with
        | nil =>
          refine ⟨Or.inl (by simp [rowOf, emailOf, hh]), ?_⟩
          simp [rowOf, emailOf, hh]
        | cons e rest =>
          have hemail : (rowOf hres f).email = e := by simp [rowOf, emailOf, hh]
          refine ⟨Or.inr ⟨rest, ?_⟩, ?_⟩
          · show hres (rowOf hres f).website =
              Except.ok (some ((rowOf hres f).email :: rest))
            rw [hemail]
            exact hh
          · rw [hemail]
            exact hne f.domain e rest hh

/-- Witness for C3 with two leads whose lookups both raise. -/
theorem c3_lookup_failure_isolated_witness :
    (enrichLoop (fun _ => (Except.error () : HunterRes))
      [{ company := "A", domain := "a.com" },
       { company := "B", domain := "b.com" }]).length =
    ([{ company := "A", domain := "a.com" },
      { company := "B", domain := "b.com" }] : List Found).length :=
  (c3_lookup_failure_isolated (fun _ => Except.error ())
    [{ company := "A", domain := "a.com" },
     { company := "B", domain := "b.com" }]
    (by intro d e es h; simp at h)).1

/-! ### Claim theorems: credential gate and the Comtrade query -/

/-- C5: when any of the five keys is the empty string, the SEARCH click is
blocked with the single aggregate error message, the session state is left
untouched, no buyer table is built, and no outbound API call is issued. -/
theorem c5_missing_credentials_block (c : Creds) (inp : Inputs) (o : Oracles)
    (st : SessionState)
    (h : c.gemini = "" ∨ c.comtrade = "" ∨ c.google = "" ∨ c.cx = "" ∨
      c.hunter = "") :
    runClick c inp o st =
      { state := st, calls := [], table := none,
        blockedError := some errorApiEn } := by
  have hc : credsComplete c = false := by
    rcases h with h | h | h | h | h <;> simp [credsComplete, h]
  simp [runClick, hc]

/-- Witness for C5 with the Gemini key missing. -/
theorem c5_missing_credentials_block_witness :
    runClick ⟨"", "k", "k", "k", "k"⟩ ⟨"Hazelnuts", "0802", "276", "Germany"⟩
      ⟨fun _ => Except.ok [], fun _ => Except.ok [], fun _ => Except.error ()⟩
      initSession =
      { state := initSession, calls := [], table := none,
        blockedError := some errorApiEn } :=
  c5_missing_credentials_block _ _ _ _ (Or.inl rfl)

/-- C6: a complete-credentials run issues exactly one Comtrade call; that
query uses classification "HS", import flow "M", annual frequency "A" with
the fixed period "2023", the user-specified reporter country and commodity
code, and no partner, second-partner, customs or mode-of-transport filters;
and the stats are the sums of the `primaryValue` and `netWgt` columns over
all returned rows. -/
theorem c6_single_scoped_query (c : Creds) (inp : Inputs) (o : Oracles)
    (st : SessionState) (hc : credsComplete c = true) :
    ((runClick c inp o st).calls.filter isComtradeCall) =
      [APICall.comtrade
        (mkComtradeQuery c.comtrade inp.target_country inp.hs_code)] ∧
    (mkComtradeQuery c.comtrade inp.target_country inp.hs_code).clCode = "HS" ∧
    (mkComtradeQuery c.comtrade inp.target_country inp.hs_code).flowCode = "M" ∧
    (mkComtradeQuery c.comtrade inp.target_country inp.hs_code).freqCode = "A" ∧
    (mkComtradeQuery c.comtrade inp.target_country inp.hs_code).typeCode = "C" ∧
    (mkComtradeQuery c.comtrade inp.target_country inp.hs_code).period =
      "2023" ∧
    (mkComtradeQuery c.comtrade inp.target_country inp.hs_code).reporterCode =
      inp.target_country ∧
    (mkComtradeQuery c.comtrade inp.target_country inp.hs_code).cmdCode =
      inp.hs_code ∧
    (mkComtradeQuery c.comtrade inp.target_country inp.hs_code).partnerCode =
      none ∧
    (mkComtradeQuery c.comtrade inp.target_country inp.hs_code).partner2Code =
      none ∧
    (mkComtradeQuery c.comtrade inp.target_country inp.hs_code).customsCode =
      none ∧
    (mkComtradeQuery c.comtrade inp.target_country inp.hs_code).motCode =
      none ∧
    (∀ rows : List TradeRow,
      sumPrimaryValue rows = (rows.map TradeRow.primaryValue).sum ∧
      sumNetWgt rows = (rows.map TradeRow.netWgt).sum) := by
  refine ⟨?_, rfl, rfl, rfl, rfl, rfl, rfl, rfl, rfl, rfl, rfl, rfl,
    fun rows => ⟨sumPrimaryValue_eq rows, sumNetWgt_eq rows⟩⟩
  rw [runClick]
  simp only [hc, if_true]
  cases hsq : o.search (mkSearchQuery c.cx inp.product_name inp.country_name) with
  | error e => simp [List.filter, isComtradeCall]
  | ok items =>
    simp [List.filter_append, List.filter, isComtradeCall, List.filter_map,
      Function.comp]

/-- Witness for C6 on a concrete complete-credentials run. -/
theorem c6_single_scoped_query_witness :
    ((runClick ⟨"k", "k", "k", "k", "k"⟩
      ⟨"Hazelnuts", "0802", "276", "Germany"⟩
      ⟨fun _ => Except.ok [], fun _ => Except.ok [], fun _ => Except.error ()⟩
      initSession).calls.filter isComtradeCall) =
      [APICall.comtrade (mkComtradeQuery "k" "276" "0802")] :=
  (c6_single_scoped_query _ _ _ _ (by decide)).1

/-! ### Additional string lemmas for the prompt and placeholders -/

theorem isPre_append_right (p : List Char) :
    ∀ (s t : List Char), isPre p s = true → isPre p (s ++ t) = true := by
  induction p with
  | nil => intro s t _; rfl
  | cons a as ih =>
    intro s t h
    cases s with
    | nil => exact absurd h (by simp [isPre])
    | cons b bs =>
      simp only [isPre, Bool.and_eq_true] at h
      simp only [List.cons_append, isPre, Bool.and_eq_true]
      exact ⟨h.1, ih bs t h.2⟩

theorem occursIn_append_left (p : List Char) :
    ∀ (x y : List Char), occursIn p x = true → occursIn p (x ++ y) = true := by
  intro x
  induction x with
  | nil =>
    intro y h
    have hp : p = [] := by
      cases p with
      | nil => rfl
      | cons a as => simp [occursIn, isPre] at h
    subst hp
    cases y with
    | nil => rfl
    | cons c rest => simp [occursIn, isPre]
  | cons c cs ih =>
    intro y h
    simp only [occursIn, Bool.or_eq_true] at h
    rcases h with h | h
    · have := isPre_append_right p (c :: cs) y h
      simp only [List.cons_append] at this ⊢
      simp [occursIn, this]
    · simp only [List.cons_append]
      simp [occursIn, ih y h]

theorem string_eq_empty_of_length (a : String) (hz : a.length = 0) :
    a = "" := by
  cases a with
  | mk d =>
    have hd : d.length = 0 := hz
    have hnil : d = [] := List.eq_nil_of_length_eq_zero hd
    rw [hnil]

theorem append_ne_empty_left (a b : String) (ha : a ≠ "") : a ++ b ≠ "" := by
  intro h
  have hl := congrArg String.length h
  rw [String.length_append] at hl
  have hz : a.length = 0 := by
    have : String.length "" = 0 := rfl
    omega
  exact ha (string_eq_empty_of_length a hz)

theorem fmtStats_ne_empty (v p : ℚ) : fmtStats v p ≠ "" :=
  append_ne_empty_left _ _ (append_ne_empty_left _ _
    (append_ne_empty_left _ _ (append_ne_empty_left _ _ (by decide))))

theorem phase1Stats_ne_empty (res : Except String (List TradeRow)) :
    phase1Stats res ≠ "" := by
  cases res with
  | error e => show "Data fetch failed." ≠ ""; decide
  | ok rows =>
    show (if rows.isEmpty then "Direct Data Unavailable. Used Mirror Data logic."
      else fmtStats (sumPrimaryValue rows)
        (unitPrice (sumPrimaryValue rows) (sumNetWgt rows))) ≠ ""
    by_cases h : rows.isEmpty
    · simp only [h, if_true]; decide
    · simp only [h, if_false]; exact fmtStats_ne_empty _ _

theorem credsComplete_gemini (c : Creds) (hc : credsComplete c = true) :
    c.gemini ≠ "" := by
  simp only [credsComplete, Bool.not_eq_true', Bool.or_eq_false_iff,
    beq_eq_false_iff_ne, ne_eq] at hc
  exact hc.1.1.1.1

/-- Phase 1 delivered no usable table: either the call raised, or the
returned table was None/empty (line 117). -/
def usableData : Except String (List TradeRow) → Bool
  | Except.ok rows => !rows.isEmpty
  | Except.error _ => false

theorem runClick_state_market (c : Creds) (inp : Inputs) (o : Oracles)
    (st : SessionState) (hc : credsComplete c = true) :
    (runClick c inp o st).state.market_stats =
      some (phase1Stats (o.comtrade
        (mkComtradeQuery c.comtrade inp.target_country inp.hs_code))) := by
  rw [runClick]
  simp only [hc, if_true]
  cases hsq : o.search (mkSearchQuery c.cx inp.product_name inp.country_name) with
  | error e => rfl
  | ok items => rfl

theorem runClick_search_called (c : Creds) (inp : Inputs) (o : Oracles)
    (st : SessionState) (hc : credsComplete c = true) :
    APICall.search (mkSearchQuery c.cx inp.product_name inp.country_name) ∈
      (runClick c inp o st).calls := by
  rw [runClick]
  simp only [hc, if_true]
  cases hsq : o.search (mkSearchQuery c.cx inp.product_name inp.country_name) with
  | error e => simp
  | ok items => simp

theorem runClick_search_error_state (c : Creds) (inp : Inputs) (o : Oracles)
    (st : SessionState) (e : String) (hc : credsComplete c = true)
    (hs : o.search (mkSearchQuery c.cx inp.product_name inp.country_name) =
      Except.error e) :
    (runClick c inp o st).state =
      { market_stats := some (phase1Stats (o.comtrade
          (mkComtradeQuery c.comtrade inp.target_country inp.hs_code))),
        buyers_list := st.buyers_list } := by
  rw [runClick]
  simp only [hc, if_true, hs]

theorem reportClick_of_market (c : Creds) (inp : Inputs) (aiLang : String)
    (st : SessionState) (ms : String) (hms : st.market_stats = some ms)
    (hne : ms ≠ "") (hg : c.gemini ≠ "") :
    reportClick c inp aiLang st =
      some (buildPrompt inp.product_name inp.country_name ms
        (joinComma st.buyers_list) aiLang) := by
  rw [reportClick, hms]
  simp [hne, hg]

/-- The fully right-associated character-list form of the prompt. -/
theorem buildPrompt_data (product country market buyers aiLang : String) :
    (buildPrompt product country market buyers aiLang).data =
      "\n        ACT AS: Senior Foreign Trade Analyst.\n        LANGUAGE: ".data ++
      ("Respond STRICTLY in ".data ++ (aiLang.data ++ (" language.".data ++
      ("\n        TASK: Analyze the market potential for ".data ++
      (product.data ++ (" in ".data ++ (country.data ++
      (".\n        DATA: ".data ++ (market.data ++
      (". \n        Potential Buyers Found: ".data ++ (buyers.data ++
      ("\n        \n        OUTPUT FORMAT:\n        1. Verdict (Go/No-Go)\n        2. Pricing Strategy (Premium vs Mass)\n        ".data ++
      ("3. Cultural Marketing Tip for ".data ++ (country.data ++
      ("\n        ".data ++
      ("4. Cold Email Subject Line for the buyers found.".data ++
      "\n        ".data)))))))))))))))) := by
  simp only [buildPrompt, data_append, List.append_assoc]

/-- The market-data string appears verbatim inside the prompt. -/
theorem buildPrompt_contains_market (product country market buyers aiLang : String) :
    occursInS market (buildPrompt product country market buyers aiLang) = true := by
  rw [occursInS, buildPrompt_data]
  apply occursIn_append_right
  apply occursIn_append_right
  apply occursIn_append_right
  apply occursIn_append_right
  apply occursIn_append_right
  apply occursIn_append_right
  apply occursIn_append_right
  apply occursIn_append_right
  apply occursIn_append_right
  exact occursIn_of_isPre _ _ (isPre_append_self _ _)

/-! ### Claim theorems: degraded market data, search failure, resolver -/

/-- C4: with complete credentials, when the trade-statistics step yields no
usable data (empty/None table or a raised exception), the run records one of
the two placeholder strings in `market_stats` instead of raising, still
issues the Buyer Discovery search call, and a subsequent report request
still proceeds, with the placeholder embedded verbatim in the prompt. -/
theorem c4_no_data_placeholder_pipeline_proceeds (c : Creds) (inp : Inputs)
    (o : Oracles) (st : SessionState) (aiLang : String)
    (hc : credsComplete c = true)
    (hud : usableData (o.comtrade
      (mkComtradeQuery c.comtrade inp.target_country inp.hs_code)) = false) :
    (runClick c inp o st).state.market_stats =
      some (phase1Stats (o.comtrade
        (mkComtradeQuery c.comtrade inp.target_country inp.hs_code))) ∧
    (phase1Stats (o.comtrade
        (mkComtradeQuery c.comtrade inp.target_country inp.hs_code)) =
        "Direct Data Unavailable. Used Mirror Data logic." ∨
      phase1Stats (o.comtrade
        (mkComtradeQuery c.comtrade inp.target_country inp.hs_code)) =
        "Data fetch failed.") ∧
    APICall.search (mkSearchQuery c.cx inp.product_name inp.country_name) ∈
      (runClick c inp o st).calls ∧
    ∃ p, reportClick c inp aiLang (runClick c inp o st).state = some p ∧
      occursInS (phase1Stats (o.comtrade
        (mkComtradeQuery c.comtrade inp.target_country inp.hs_code))) p =
        true := by
  refine ⟨runClick_state_market c inp o st hc, ?_,
    runClick_search_called c inp o st hc, ?_⟩
  · cases hres : o.comtrade
        (mkComtradeQuery c.comtrade inp.target_country inp.hs_code) with
    | error e => right; rfl
    | ok rows =>
      left
      rw [hres] at hud
      have hemp : rows.isEmpty = true := by
        simpa [usableData] using hud
      show (if rows.isEmpty then
          "Direct Data Unavailable. Used Mirror Data logic."
        else fmtStats (sumPrimaryValue rows)
          (unitPrice (sumPrimaryValue rows) (sumNetWgt rows))) =
        "Direct Data Unavailable. Used Mirror Data logic."
      rw [hemp, if_pos rfl]
  · refine ⟨buildPrompt inp.product_name inp.country_name
      (phase1Stats (o.comtrade
        (mkComtradeQuery c.comtrade inp.target_country inp.hs_code)))
      (joinComma (runClick c inp o st).state.buyers_list) aiLang, ?_, ?_⟩
    · exact reportClick_of_market c inp aiLang (runClick c inp o st).state _
        (runClick_state_market c inp o st hc) (phase1Stats_ne_empty _)
        (credsComplete_gemini c hc)
    · exact buildPrompt_contains_market _ _ _ _ _

/-- Witness for C4: complete keys, Comtrade returns an empty table. -/
theorem c4_no_data_placeholder_pipeline_proceeds_witness :
    (runClick ⟨"k", "k", "k", "k", "k"⟩
      ⟨"Hazelnuts", "0802", "276", "Germany"⟩
      ⟨fun _ => Except.ok [], fun _ => Except.ok [], fun _ => Except.error ()⟩
      initSession).state.market_stats =
      some (phase1Stats (Except.ok [])) :=
  (c4_no_data_placeholder_pipeline_proceeds ⟨"k", "k", "k", "k", "k"⟩
    ⟨"Hazelnuts", "0802", "276", "Germany"⟩
    ⟨fun _ => Except.ok [], fun _ => Except.ok [], fun _ => Except.error ()⟩
    initSession "English" (by decide) (by decide)).1

/-- C10: with complete credentials, if the primary search call raises, the
stored `buyers_list` is exactly what it was before the run (so `[]` on a
first run), and a subsequent report request builds its prompt from that
retained value. -/
theorem c10_search_failure_retains_buyers (c : Creds) (inp : Inputs)
    (o : Oracles) (st : SessionState) (aiLang : String) (e : String)
    (hc : credsComplete c = true)
    (hs : o.search (mkSearchQuery c.cx inp.product_name inp.country_name) =
      Except.error e) :
    (runClick c inp o st).state.buyers_list = st.buyers_list ∧
    (runClick c inp o initSession).state.buyers_list = [] ∧
    reportClick c inp aiLang (runClick c inp o st).state =
      some (buildPrompt inp.product_name inp.country_name
        (phase1Stats (o.comtrade
          (mkComtradeQuery c.comtrade inp.target_country inp.hs_code)))
        (joinComma st.buyers_list) aiLang) := by
  have hst := runClick_search_error_state c inp o st e hc hs
  have hst0 := runClick_search_error_state c inp o initSession e hc hs
  refine ⟨by rw [hst], by rw [hst0]; rfl, ?_⟩
  have hrc := reportClick_of_market c inp aiLang (runClick c inp o st).state
    (phase1Stats (o.comtrade
      (mkComtradeQuery c.comtrade inp.target_country inp.hs_code)))
    (by rw [hst]) (phase1Stats_ne_empty _) (credsComplete_gemini c hc)
  rw [hrc, hst]

/-- Witness for C10: search raises on a session holding one earlier lead. -/
theorem c10_search_failure_retains_buyers_witness :
    (runClick ⟨"k", "k", "k", "k", "k"⟩
      ⟨"Hazelnuts", "0802", "276", "Germany"⟩
      ⟨fun _ => Except.error "boom", fun _ => Except.error "down",
        fun _ => Except.error ()⟩
      { market_stats := none, buyers_list := ["Old Lead"] }).state.buyers_list =
      ["Old Lead"] :=
  (c10_search_failure_retains_buyers ⟨"k", "k", "k", "k", "k"⟩
    ⟨"Hazelnuts", "0802", "276", "Germany"⟩
    ⟨fun _ => Except.error "boom", fun _ => Except.error "down",
      fun _ => Except.error ()⟩
    { market_stats := none, buyers_list := ["Old Lead"] } "English" "down"
    (by decide) rfl).1

/-- Fields split at the pipe characters of a resolver line. -/
def splitPipes : List Char → List (List Char)
  | [] => [[]]
  | '|' :: rest => [] :: splitPipes rest
  | c :: rest =>
    match splitPipes rest with
    | [] => [[c]]
    | f :: fs => (c :: f) :: fs

/-- The record `{hs_code, target_country_iso, country_name}` of spec
section 3. -/
structure MarketIntelligence where
  hs_code : String
  target_country_iso : String
  country_name : String
deriving DecidableEq

/-- Modelled from the spec: the Product Intelligence Resolver of spec
section 4.1 is absent from src/app.py — the HS code, ISO numeric code and
country name are manual text inputs there (lines 88-94).  Per the spec, the
resolver parses the language model's pipe-delimited line `CODE|ISO|NAME`
into a MarketIntelligence and reports a resolution failure (`none`) unless
three fields are present and non-empty. -/
def parseResolver (s : String) : Option MarketIntelligence :=
  match splitPipes s.data with
  | [a, b, c] =>
    if a = [] ∨ b = [] ∨ c = [] then none else some ⟨⟨a⟩, ⟨b⟩, ⟨c⟩⟩
  | _ => none

/-- C9: every successfully parsed resolver output yields a record whose
three fields are non-empty, and the scenario-A line `0802|276|Germany`
parses to exactly {hs_code "0802", iso "276", name "Germany"}. -/
theorem c9_resolver_parse (s : String) (mi : MarketIntelligence)
    (h : parseResolver s = some mi) :
    mi.hs_code ≠ "" ∧ mi.target_country_iso ≠ "" ∧ mi.country_name ≠ "" ∧
    parseResolver "0802|276|Germany" =
      some ⟨"0802", "276", "Germany"⟩ := by
  have key : mi.hs_code ≠ "" ∧ mi.target_country_iso ≠ "" ∧
      mi.country_name ≠ "" := by
    rw [parseResolver] at h
    split at h
    · rename_i a b cc heq
      split at h
      · exact absurd h (by simp)
      · rename_i hcond
        push_neg at hcond
        obtain ⟨ha, hb, hcc⟩ := hcond
        obtain rfl : mi = ⟨⟨a⟩, ⟨b⟩, ⟨cc⟩⟩ := (Option.some.inj h).symm
        refine ⟨?_, ?_, ?_⟩
        · intro hx; exact ha (congrArg String.data hx)
        · intro hx; exact hb (congrArg String.data hx)
        · intro hx; exact hcc (congrArg String.data hx)
    · exact absurd h (by simp)
  exact ⟨key.1, key.2.1, key.2.2, by decide⟩

/-- Witness for C9 at the scenario-A resolver line. -/
theorem c9_resolver_parse_witness :
    ("0802" : String) ≠ "" ∧ ("276" : String) ≠ "" ∧
    ("Germany" : String) ≠ "" ∧
    parseResolver "0802|276|Germany" =
      some ⟨"0802", "276", "Germany"⟩ :=
  c9_resolver_parse "0802|276|Germany" ⟨"0802", "276", "Germany"⟩ (by decide)

/-! ### Claim theorems: the report prompt -/

theorem occursIn_cons_chain (p₁ p₂ p₃ rest : List Char) :
    occursIn ((p₁ ++ p₂) ++ p₃) (p₁ ++ (p₂ ++ (p₃ ++ rest))) = true := by
  have h : p₁ ++ (p₂ ++ (p₃ ++ rest)) = ((p₁ ++ p₂) ++ p₃) ++ rest := by
    simp [List.append_assoc]
  rw [h]
  exact occursIn_of_isPre _ _ (isPre_append_self _ _)

theorem occursIn_cons_chain2 (p₁ p₂ rest : List Char) :
    occursIn (p₁ ++ p₂) (p₁ ++ (p₂ ++ rest)) = true := by
  have h : p₁ ++ (p₂ ++ rest) = (p₁ ++ p₂) ++ rest := by
    simp [List.append_assoc]
  rw [h]
  exact occursIn_of_isPre _ _ (isPre_append_self _ _)

set_option maxRecDepth 100000 in
/-- C8 counterexample: the prompt's third labeled section is a cultural
marketing tip and its fourth asks only for a cold-email subject line for
the buyers collectively; the text the claim describes — a buyer-approach
strategy section and a drafted cold-outreach email addressed to one lead —
appears nowhere in the rendered prompt (shown here at scenario-A inputs). -/
theorem c8_counterexample :
    occursInS "3. Cultural Marketing Tip for Germany"
      (buildPrompt "Hazelnuts" "Germany" "M" "B" "English") = true ∧
    occursInS "4. Cold Email Subject Line for the buyers found."
      (buildPrompt "Hazelnuts" "Germany" "M" "B" "English") = true ∧
    occursInS "buyer-approach"
      (buildPrompt "Hazelnuts" "Germany" "M" "B" "English") = false ∧
    occursInS "outreach"
      (buildPrompt "Hazelnuts" "Germany" "M" "B" "English") = false := by
  refine ⟨by decide, by decide, by decide, by decide⟩

/-- C8 amended: for every input, the Report Synthesizer renders the single
fixed-structure prompt with the output language as an explicit instruction
parameter ("Respond STRICTLY in «language» language.") and exactly four
numbered sections: a go/no-go verdict, a pricing strategy (premium vs
mass), a cultural marketing tip for the country, and a cold-email subject
line for the buyers found — not a buyer-approach strategy section nor a
drafted cold-outreach email. -/
theorem c8_prompt_sections (product country market buyers aiLang : String) :
    occursInS ("Respond STRICTLY in " ++ aiLang ++ " language.")
      (buildPrompt product country market buyers aiLang) = true ∧
    occursInS "1. Verdict (Go/No-Go)"
      (buildPrompt product country market buyers aiLang) = true ∧
    occursInS "2. Pricing Strategy (Premium vs Mass)"
      (buildPrompt product country market buyers aiLang) = true ∧
    occursInS ("3. Cultural Marketing Tip for " ++ country)
      (buildPrompt product country market buyers aiLang) = true ∧
    occursInS "4. Cold Email Subject Line for the buyers found."
      (buildPrompt product country market buyers aiLang) = true := by
  refine ⟨?_, ?_, ?_, ?_, ?_⟩
  · rw [occursInS, buildPrompt_data]
    simp only [data_append]
    apply occursIn_append_right
    exact occursIn_cons_chain _ _ _ _
  · rw [occursInS, buildPrompt_data]
    apply occursIn_append_right
    apply occursIn_append_right
    apply occursIn_append_right
    apply occursIn_append_right
    apply occursIn_append_right
    apply occursIn_append_right
    apply occursIn_append_right
    apply occursIn_append_right
    apply occursIn_append_right
    apply occursIn_append_right
    apply occursIn_append_right
    apply occursIn_append_right
    apply occursIn_append_left
    decide
  · rw [occursInS, buildPrompt_data]
    apply occursIn_append_right
    apply occursIn_append_right
    apply occursIn_append_right
    apply occursIn_append_right
    apply occursIn_append_right
    apply occursIn_append_right
    apply occursIn_append_right
    apply occursIn_append_right
    apply occursIn_append_right
    apply occursIn_append_right
    apply occursIn_append_right
    apply occursIn_append_right
    apply occursIn_append_left
    decide
  · rw [occursInS, buildPrompt_data]
    simp only [data_append]
    apply occursIn_append_right
    apply occursIn_append_right
    apply occursIn_append_right
    apply occursIn_append_right
    apply occursIn_append_right
    apply occursIn_append_right
    apply occursIn_append_right
    apply occursIn_append_right
    apply occursIn_append_right
    apply occursIn_append_right
    apply occursIn_append_right
    apply occursIn_append_right
    apply occursIn_append_right
    exact occursIn_cons_chain2 _ _ _
  · rw [occursInS, buildPrompt_data]
    apply occursIn_append_right
    apply occursIn_append_right
    apply occursIn_append_right
    apply occursIn_append_right
    apply occursIn_append_right
    apply occursIn_append_right
    apply occursIn_append_right
    apply occursIn_append_right
    apply occursIn_append_right
    apply occursIn_append_right
    apply occursIn_append_right
    apply occursIn_append_right
    apply occursIn_append_right
    apply occursIn_append_right
    apply occursIn_append_right
    apply occursIn_append_right
    exact occursIn_of_isPre _ _ (isPre_append_self _ _)

end Growmarkt
